import Mathlib

/-!
Verification of the provisioning and reconciliation support logic of the
ipfs-xcc-net repository (controllers/utils/utils.go): object synchronization
(CreateOrPatchTrackedObjects), resource sizing (IPFSContainerResources), and
identity provisioning (randomKey, NewClusterSecret, NewSwarmKey, NewKey,
GenerateIdentity).  External collaborators (the Kubernetes apply backend,
the libp2p crypto primitives, the OS random source) are modelled as explicit
parameters; everything else is translated directly from the Go source.
-/

/-! ## Go error model

A Go error is either a base error or the wrapping produced by
fmt.Errorf with a context string and the %w verb, which keeps the
wrapped error recoverable through errors.Unwrap. -/

inductive GoError where
| base (msg : String)
| wrapped (ctx : String) (inner : GoError)
deriving DecidableEq, Repr

/-- errors.Unwrap: recover the error wrapped by fmt.Errorf %w. -/
def GoError.unwrap : GoError → Option GoError
| .base _ => none
| .wrapped _ e => some e

/-- The Error() string of a Go error; fmt.Errorf concatenates
the context, a colon-space separator, and the inner message. -/
def GoError.message : GoError → String
| .base m => m
| .wrapped c e => c ++ ": " ++ e.message

/-! ## ObjectSynchronizer: CreateOrPatchTrackedObjects

The apply backend (controllerutil.CreateOrPatch with a client) is an
external collaborator: it is a parameter mapping a target object and its
mutation function to an OperationResult and a possible error.  A tracked
object carries the identity data the function reads from it (the kind from
GetObjectKind().GroupVersionKind() and the name from GetName()); mutation
functions stay an abstract type parameter since the function only passes
them through to the backend. -/

/-- controllerutil.OperationResult. -/
inductive OperationResult where
| resultNone
| created
| updated
| updatedStatus
| updatedStatusOnly
deriving DecidableEq, Repr

/-- The identity data of a client.Object that CreateOrPatchTrackedObjects
reads: the Kind of the GroupVersionKind and the object name. -/
structure ObjId where
kind : String
name : String
deriving DecidableEq, Repr

/-- One structured log record emitted by log.Error or log.Info. -/
structure LogRecord where
isError : Bool
msg : String
objName : String
objKind : String
result : OperationResult
err : Option GoError
deriving DecidableEq, Repr

/-- The loop body of CreateOrPatchTrackedObjects for a single tracked
object: invoke the backend, emit the corresponding log record. -/
def processOne {μ : Type} (createOrPatch : ObjId → μ → OperationResult × Option GoError)
    (p : ObjId × μ) : LogRecord :=
  let result := (createOrPatch p.1 p.2).1
  match (createOrPatch p.1 p.2).2 with
  | some e => ⟨true, "error creating object", p.1.name, p.1.kind, result, some e⟩
  | none => ⟨false, "object changed", p.1.name, p.1.kind, result, none⟩

/-- CreateOrPatchTrackedObjects.  The Go source ranges over a map of
tracked objects; one execution visits them in some sequence, which this
embedding takes as the input list (any permutation of the collection is a
possible sequence, since Go map iteration order is unspecified).  Returns
the requeue flag together with the emitted log records, one per backend
call. -/
def CreateOrPatchTrackedObjects {μ : Type}
    (createOrPatch : ObjId → μ → OperationResult × Option GoError)
    (trackedObjects : List (ObjId × μ)) : Bool × List LogRecord :=
  List.foldl
    (fun acc p =>
      let rec' := processOne createOrPatch p
      (acc.1 || rec'.isError, acc.2 ++ [rec']))
    (false, []) trackedObjects

/-- ErrFunc: wrap an error into a mutation function that always fails
with it.  In the embedding of mutation functions as an abstract type this
is only meaningful for the instantiation where the mutation is its own
returned error. -/
def ErrFunc (err : GoError) : Unit → Option GoError := fun _ => some err

/-- The sequence of object names on which the backend is invoked during a
run of CreateOrPatchTrackedObjects. -/
def callSeq {μ : Type} (createOrPatch : ObjId → μ → OperationResult × Option GoError)
    (order : List (ObjId × μ)) : List String :=
  ((CreateOrPatchTrackedObjects createOrPatch order).2).map LogRecord.objName

theorem createOrPatchTrackedObjects_spec {μ : Type}
    (createOrPatch : ObjId → μ → OperationResult × Option GoError)
    (objs : List (ObjId × μ)) :
    CreateOrPatchTrackedObjects createOrPatch objs =
      ((objs.map (processOne createOrPatch)).any LogRecord.isError,
        objs.map (processOne createOrPatch)) := by
  suffices h : ∀ (b : Bool) (acc : List LogRecord),
      List.foldl
        (fun acc p =>
          let rec' := processOne createOrPatch p
          (acc.1 || rec'.isError, acc.2 ++ [rec']))
        (b, acc) objs =
        (b || (objs.map (processOne createOrPatch)).any LogRecord.isError,
          acc ++ objs.map (processOne createOrPatch)) by
    have := h false []
    simpa [CreateOrPatchTrackedObjects] using this
  induction objs with
  | nil => intro b acc; simp
  | cons p rest ih =>
      intro b acc
      simp only [List.foldl_cons, List.map_cons, List.any_cons, ih]
      simp [Bool.or_assoc]

/-! ## ResourceSizer: IPFSContainerResources

A Kubernetes resource.Quantity built by resource.NewScaledQuantity is an
integer value together with a decimal scale, denoting value * 10 ^ scale
base units.  Go int64 division truncates toward zero, which is Int.tdiv;
within the int64 input range none of the arithmetic here can overflow
int64, so plain Int is a faithful model. -/

def tebibyte : Int := 1099511627776

/-- resource.Giga. -/
def Giga : Int := 9

/-- resource.Milli. -/
def Milli : Int := -3

/-- resource.Quantity as produced by resource.NewScaledQuantity:
value * 10 ^ scale base units. -/
structure Quantity where
value : Int
scale : Int
deriving DecidableEq, Repr

/-- resource.NewScaledQuantity. -/
def NewScaledQuantity (value scale : Int) : Quantity := ⟨value, scale⟩

/-- Semantic magnitude of a quantity, in units of 10 ^ (-3) base units;
exact for every scale at least Milli, which covers both scales used by
IPFSContainerResources. -/
def Quantity.milliUnits (q : Quantity) : Int := q.value * 10 ^ (q.scale + 3).toNat

/-- Semantic comparison of quantities. -/
def Quantity.le (q r : Quantity) : Prop := q.milliUnits ≤ r.milliUnits

instance (q r : Quantity) : Decidable (q.le r) :=
  inferInstanceAs (Decidable (_ ≤ _))

/-- The fields of corev1.ResourceRequirements that IPFSContainerResources
populates: memory and CPU, requests and limits. -/
structure ResourceRequirements where
requestsMemory : Quantity
requestsCPU : Quantity
limitsMemory : Quantity
limitsCPU : Quantity
deriving DecidableEq, Repr

/-- Componentwise semantic comparison of resource requirement profiles. -/
def ResourceRequirements.le (a b : ResourceRequirements) : Prop :=
  a.requestsMemory.le b.requestsMemory ∧ a.requestsCPU.le b.requestsCPU ∧
    a.limitsMemory.le b.limitsMemory ∧ a.limitsCPU.le b.limitsCPU

instance (a b : ResourceRequirements) : Decidable (a.le b) :=
  inferInstanceAs (Decidable (_ ∧ _))

/-- IPFSContainerResources from controllers/utils/utils.go.  Go integer
division truncates toward zero (Int.tdiv). -/
def IPFSContainerResources (ipfsStorageBytes : Int) : ResourceRequirements :=
  let ipfsStorageTB := ipfsStorageBytes.tdiv tebibyte
  let ipfsMilliCoresMin := 250 + 500 * ipfsStorageTB
  let ipfsRAMGBMin := if ipfsStorageTB < 2 then 1 else ipfsStorageTB
  { requestsMemory := NewScaledQuantity ipfsRAMGBMin Giga
    requestsCPU := NewScaledQuantity ipfsMilliCoresMin Milli
    limitsMemory := NewScaledQuantity (2 * ipfsRAMGBMin) Giga
    limitsCPU := NewScaledQuantity (2 * ipfsMilliCoresMin) Milli }

theorem tdiv_tebibyte_mono {s1 s2 : Int} (h0 : 0 ≤ s1) (h : s1 ≤ s2) :
    s1.tdiv tebibyte ≤ s2.tdiv tebibyte := by
  rw [Int.tdiv_eq_ediv h0 (by decide : (0:Int) ≤ tebibyte),
    Int.tdiv_eq_ediv (le_trans h0 h) (by decide : (0:Int) ≤ tebibyte)]
  exact Int.ediv_le_ediv (by decide) h

theorem tdiv_tebibyte_neg {s : Int} (h : s < 0) : s.tdiv tebibyte < 2 := by
  have h1 : s.tdiv tebibyte ≤ 0 := by
    have h2 : (0:Int) ≤ -s := by omega
    have h3 : (0:Int) ≤ (-s).tdiv tebibyte :=
      Int.tdiv_nonneg h2 (by decide)
    have h4 : (-s).tdiv tebibyte = -(s.tdiv tebibyte) := Int.neg_tdiv s tebibyte
    omega
  omega

/-! ## ObjectSynchronizer claims -/

theorem processOne_isError {μ : Type}
    (createOrPatch : ObjId → μ → OperationResult × Option GoError) (p : ObjId × μ) :
    (processOne createOrPatch p).isError = ((createOrPatch p.1 p.2).2).isSome := by
  unfold processOne
  cases h : (createOrPatch p.1 p.2).2 <;> simp

theorem processOne_objName {μ : Type}
    (createOrPatch : ObjId → μ → OperationResult × Option GoError) (p : ObjId × μ) :
    (processOne createOrPatch p).objName = p.1.name := by
  unfold processOne
  cases h : (createOrPatch p.1 p.2).2 <;> simp

theorem createOrPatchTrackedObjects_fst_eq_any {μ : Type}
    (createOrPatch : ObjId → μ → OperationResult × Option GoError)
    (objs : List (ObjId × μ)) :
    (CreateOrPatchTrackedObjects createOrPatch objs).1 =
      objs.any fun p => ((createOrPatch p.1 p.2).2).isSome := by
  rw [createOrPatchTrackedObjects_spec]
  induction objs with
  | nil => rfl
  | cons p rest ih =>
      simp only [List.any_cons] at ih ⊢
      simp [processOne_isError] at ih ⊢
      rw [ih]

/-- Claim C1: CreateOrPatchTrackedObjects returns true if and only if at
least one createOrPatch call returned an error, and for the empty
collection it returns false with no backend calls (no log records, each
call emits exactly one record). -/
theorem C1_requeue_iff_some_failure {μ : Type}
    (createOrPatch : ObjId → μ → OperationResult × Option GoError)
    (objs : List (ObjId × μ)) :
    ((CreateOrPatchTrackedObjects createOrPatch objs).1 = true ↔
      ∃ p ∈ objs, ((createOrPatch p.1 p.2).2).isSome = true) ∧
    CreateOrPatchTrackedObjects createOrPatch ([] : List (ObjId × μ)) = (false, []) := by
  refine ⟨?_, rfl⟩
  rw [createOrPatchTrackedObjects_fst_eq_any, List.any_eq_true]

/-- Claim C5: a failure on one tracked object never aborts the batch:
the run over any iteration sequence emits exactly one record per tracked
object, and the record for each object is computed by processOne from
that object and the backend alone, hence independent of every other
object and of the failures of every other object. -/
theorem C5_failure_isolation {μ : Type}
    (createOrPatch : ObjId → μ → OperationResult × Option GoError)
    (objs : List (ObjId × μ)) :
    ((CreateOrPatchTrackedObjects createOrPatch objs).2).length = objs.length ∧
    (CreateOrPatchTrackedObjects createOrPatch objs).2 =
      objs.map (processOne createOrPatch) := by
  rw [createOrPatchTrackedObjects_spec]
  simp

/-! ### Claim C9: iteration order

The Go source iterates a map with range, whose visit order is unspecified
and randomized between runs; any permutation of the tracked-object
collection is a possible call sequence.  The claim that two runs always
produce the same call sequence is refuted on a two-object collection. -/

def objA : ObjId := ⟨"ConfigMap", "obj-a"⟩

def objB : ObjId := ⟨"ConfigMap", "obj-b"⟩

def okBackend : ObjId → Unit → OperationResult × Option GoError :=
  fun _ _ => (.created, none)

/-- Claim C9 counterexample: over the two-object collection containing
objA and objB, the iteration orders objA-then-objB and objB-then-objA are
both permutations of the collection (both possible Go map visit orders),
yet they invoke createOrPatch in different sequences; so the claim that
any two runs over the same collection use the same sequence is false. -/
theorem C9_counterexample :
    ¬ ∀ (o1 o2 : List (ObjId × Unit)),
        o1.Perm [(objA, ()), (objB, ())] → o2.Perm [(objA, ()), (objB, ())] →
        callSeq okBackend o1 = callSeq okBackend o2 := by
  intro h
  have h1 := h [(objA, ()), (objB, ())] [(objB, ()), (objA, ())]
    (List.Perm.refl _) (List.Perm.swap (objA, ()) (objB, ()) [])
  have h2 : callSeq okBackend [(objA, ()), (objB, ())] = ["obj-a", "obj-b"] := rfl
  have h3 : callSeq okBackend [(objB, ()), (objA, ())] = ["obj-b", "obj-a"] := rfl
  rw [h2, h3] at h1
  exact absurd h1 (by decide)

/-- Claim C9 amended: the iteration order over the tracked-object map is
not deterministic; what holds is that every possible run (every
permutation of the collection) invokes createOrPatch exactly once per
tracked object, so the call sequence is a permutation of the collection
names and has its length. -/
theorem C9_amended_once_per_object {μ : Type}
    (createOrPatch : ObjId → μ → OperationResult × Option GoError)
    (objs order : List (ObjId × μ)) (h : order.Perm objs) :
    (callSeq createOrPatch order).Perm (objs.map fun p => p.1.name) ∧
    (callSeq createOrPatch order).length = objs.length := by
  have hseq : callSeq createOrPatch order = order.map fun p => p.1.name := by
    unfold callSeq
    rw [createOrPatchTrackedObjects_spec]
    simp [processOne_objName]
  constructor
  · rw [hseq]
    exact h.map _
  · rw [hseq]
    simp [h.length_eq]

/-- Claim C9 amended, witness: the reversed order of the two-object
collection is a permutation of it, and its run calls each object exactly
once. -/
theorem C9_amended_witness :
    (callSeq okBackend [(objB, ()), (objA, ())]).Perm
      ([(objA, ()), (objB, ())].map fun p => p.1.name) ∧
    (callSeq okBackend [(objB, ()), (objA, ())]).length = 2 :=
  C9_amended_once_per_object okBackend [(objA, ()), (objB, ())]
    [(objB, ()), (objA, ())] (List.Perm.swap (objA, ()) (objB, ()) [])

/-! ## ResourceSizer claims -/

theorem quantity_le_of_value_le {v1 v2 c : Int} (h : v1 ≤ v2) :
    (NewScaledQuantity v1 c).le (NewScaledQuantity v2 c) := by
  unfold Quantity.le Quantity.milliUnits NewScaledQuantity
  exact mul_le_mul_of_nonneg_right h (by positivity)

/-- Claim C2: for non-negative storageBytes, the storage terabyte count is
the floor of storageBytes / 2 ^ 40 (truncating division agrees with the
floor on non-negative input), the CPU request is 250 + 500 * storageTB
millicores, the CPU limit is exactly twice the CPU request, and the
memory limit is exactly twice the memory request. -/
theorem C2_cpu_double_mem_double (s : Int) (h : 0 ≤ s) :
    (IPFSContainerResources s).requestsCPU =
      NewScaledQuantity (250 + 500 * (s / tebibyte)) Milli ∧
    (IPFSContainerResources s).limitsCPU =
      NewScaledQuantity (2 * (250 + 500 * (s / tebibyte))) Milli ∧
    (IPFSContainerResources s).limitsCPU.value =
      2 * (IPFSContainerResources s).requestsCPU.value ∧
    (IPFSContainerResources s).limitsMemory.value =
      2 * (IPFSContainerResources s).requestsMemory.value := by
  have ht : s.tdiv tebibyte = s / tebibyte :=
    Int.tdiv_eq_ediv h (by decide)
  unfold IPFSContainerResources
  simp [ht, NewScaledQuantity]

/-- Claim C2, witness at storageBytes = 3 TiB + 7 bytes. -/
theorem C2_witness :
    (0:Int) ≤ 3298534883335 ∧
    (IPFSContainerResources 3298534883335).requestsCPU =
      NewScaledQuantity (250 + 500 * ((3298534883335:Int) / tebibyte)) Milli ∧
    (IPFSContainerResources 3298534883335).limitsCPU =
      NewScaledQuantity (2 * (250 + 500 * ((3298534883335:Int) / tebibyte))) Milli ∧
    (IPFSContainerResources 3298534883335).limitsCPU.value =
      2 * (IPFSContainerResources 3298534883335).requestsCPU.value ∧
    (IPFSContainerResources 3298534883335).limitsMemory.value =
      2 * (IPFSContainerResources 3298534883335).requestsMemory.value :=
  ⟨by decide, C2_cpu_double_mem_double 3298534883335 (by decide)⟩

/-- Claim C3: the memory request value is storageTB clamped to 1 when
storageTB < 2 (the clamp value is 1, not 2), and at one tebibyte of
storage the profile requests one decimal gigabyte of memory and 750
millicores of CPU. -/
theorem C3_ram_clamp_to_one (s : Int) (h : 0 ≤ s) :
    (IPFSContainerResources s).requestsMemory =
      NewScaledQuantity (if s.tdiv tebibyte < 2 then 1 else s.tdiv tebibyte) Giga ∧
    (IPFSContainerResources tebibyte).requestsMemory = NewScaledQuantity 1 Giga ∧
    (IPFSContainerResources tebibyte).requestsCPU = NewScaledQuantity 750 Milli := by
  refine ⟨?_, by decide, by decide⟩
  unfold IPFSContainerResources
  rfl

/-- Claim C3, witness at storageBytes = 1 TiB. -/
theorem C3_witness :
    (0:Int) ≤ tebibyte ∧
    ((IPFSContainerResources tebibyte).requestsMemory =
      NewScaledQuantity (if Int.tdiv tebibyte tebibyte < 2 then 1 else Int.tdiv tebibyte tebibyte) Giga ∧
    (IPFSContainerResources tebibyte).requestsMemory = NewScaledQuantity 1 Giga ∧
    (IPFSContainerResources tebibyte).requestsCPU = NewScaledQuantity 750 Milli) :=
  ⟨by decide, C3_ram_clamp_to_one tebibyte (by decide)⟩

/-- Claim C4: the resource profile is componentwise monotone over
non-negative storage sizes. -/
theorem C4_profile_monotone (s1 s2 : Int) (h0 : 0 ≤ s1) (h : s1 < s2) :
    (IPFSContainerResources s1).le (IPFSContainerResources s2) := by
  have hT : s1.tdiv tebibyte ≤ s2.tdiv tebibyte := tdiv_tebibyte_mono h0 h.le
  have hram : (if s1.tdiv tebibyte < 2 then (1:Int) else s1.tdiv tebibyte) ≤
      (if s2.tdiv tebibyte < 2 then (1:Int) else s2.tdiv tebibyte) := by
    split_ifs <;> omega
  unfold IPFSContainerResources ResourceRequirements.le
  exact ⟨quantity_le_of_value_le hram, quantity_le_of_value_le (by omega),
    quantity_le_of_value_le (by omega), quantity_le_of_value_le (by omega)⟩

/-- Claim C4, witness at storage sizes 0 and 16 TiB. -/
theorem C4_witness :
    (0:Int) ≤ 0 ∧ (0:Int) < 16 * tebibyte ∧
    (IPFSContainerResources 0).le (IPFSContainerResources (16 * tebibyte)) :=
  ⟨by decide, by decide, C4_profile_monotone 0 (16 * tebibyte) (by decide) (by decide)⟩

/-- Claim C10: IPFSContainerResources is total on the whole int64 range,
no precondition excludes negative input; every negative storageBytes
yields storageTB < 2, every input with storageTB < 2 gets memory request
exactly one decimal gigabyte and memory limit exactly two; and at
storageBytes = -(1 TiB) the CPU request value is the negative -250. -/
theorem C10_total_negatives_clamped :
    (∀ s : Int, -(2 ^ 63) ≤ s → s < 2 ^ 63 →
      (s < 0 → s.tdiv tebibyte < 2) ∧
      (s.tdiv tebibyte < 2 →
        (IPFSContainerResources s).requestsMemory = NewScaledQuantity 1 Giga ∧
        (IPFSContainerResources s).limitsMemory = NewScaledQuantity 2 Giga)) ∧
    (IPFSContainerResources (-tebibyte)).requestsCPU = NewScaledQuantity (-250) Milli ∧
    (IPFSContainerResources (-tebibyte)).requestsCPU.value < 0 := by
  refine ⟨?_, by decide, by decide⟩
  intro s _ _
  constructor
  · exact fun hneg => tdiv_tebibyte_neg hneg
  · intro hlt
    unfold IPFSContainerResources
    simp [hlt, NewScaledQuantity]

/-- Claim C10, witness at storageBytes = -5. -/
theorem C10_witness :
    -(2 ^ 63) ≤ (-5 : Int) ∧ (-5 : Int) < 2 ^ 63 ∧ (-5 : Int) < 0 ∧
    Int.tdiv (-5) tebibyte < 2 ∧
    (IPFSContainerResources (-5)).requestsMemory = NewScaledQuantity 1 Giga ∧
    (IPFSContainerResources (-5)).limitsMemory = NewScaledQuantity 2 Giga := by
  have h := (C10_total_negatives_clamped.1 (-5) (by decide) (by decide))
  have h1 : Int.tdiv (-5) tebibyte < 2 := h.1 (by decide)
  exact ⟨by decide, by decide, by decide, h1, (h.2 h1).1, (h.2 h1).2⟩

/-! ## IdentityProvisioner

crypto/rand.Read is the external random source: modelled as a function
from a requested length to either an error or the bytes read.  A
well-formed source delivers exactly the requested number of bytes, each
below 256; both facts are hypotheses of the success theorems. -/

/-- A read from the secure random source: rand.Read on a buffer of the
given length either fails or fills it completely. -/
def RandRead : Type := Nat → Except GoError (List Nat)

/-- hex.EncodeToString digit table, lowercase. -/
def hexDigit (n : Nat) : Char :=
  if n < 10 then Char.ofNat (48 + n) else Char.ofNat (87 + n)

/-- hex encoding of one byte: high nibble then low nibble. -/
def hexEncodeByte (b : Nat) : List Char :=
  [hexDigit (b / 16), hexDigit (b % 16)]

/-- hex.EncodeToString. -/
def hexEncodeToString (bs : List Nat) : String :=
  String.mk (bs.flatMap hexEncodeByte)

/-- randomKey from controllers/utils/utils.go: read len bytes from the
random source, propagating its error. -/
def randomKey (randRead : RandRead) (len : Nat) : Except GoError (List Nat) :=
  match randRead len with
  | .error e => .error e
  | .ok buf => .ok buf

/-- NewClusterSecret from controllers/utils/utils.go. -/
def NewClusterSecret (randRead : RandRead) : Except GoError String :=
  match randomKey randRead 32 with
  | .error e => .error e
  | .ok buf => .ok (hexEncodeToString buf)

/-- The swarmPrefix literal of NewSwarmKey. -/
def swarmHeader : String := "/key/swarm/psk/1.0.0"

/-- The multiBase literal of NewSwarmKey. -/
def multiBase : String := "/base16/"

/-- NewSwarmKey from controllers/utils/utils.go: fmt.Sprintf joining the
two literals and the hex key with newlines. -/
def NewSwarmKey (randRead : RandRead) : Except GoError String :=
  match randomKey randRead 32 with
  | .error e => .error e
  | .ok buf =>
      .ok (swarmHeader ++ "\n" ++ multiBase ++ "\n" ++ hexEncodeToString buf)

/-- A character is a lowercase hexadecimal digit. -/
def isLowerHexChar (c : Char) : Prop :=
  (48 ≤ c.toNat ∧ c.toNat ≤ 57) ∨ (97 ≤ c.toNat ∧ c.toNat ≤ 102)

instance (c : Char) : Decidable (isLowerHexChar c) :=
  inferInstanceAs (Decidable (_ ∨ _))

theorem hexDigit_isLowerHex {n : Nat} (h : n < 16) : isLowerHexChar (hexDigit n) := by
  interval_cases n <;> decide

theorem hexEncodeByte_isLowerHex {b : Nat} (h : b < 256) :
    ∀ c ∈ hexEncodeByte b, isLowerHexChar c := by
  intro c hc
  have h1 : b / 16 < 16 := Nat.div_lt_of_lt_mul (by omega)
  have h2 : b % 16 < 16 := Nat.mod_lt b (by omega)
  simp only [hexEncodeByte, List.mem_cons, List.not_mem_nil, or_false] at hc
  rcases hc with rfl | rfl
  · exact hexDigit_isLowerHex h1
  · exact hexDigit_isLowerHex h2

theorem hexEncodeToString_length (bs : List Nat) :
    (hexEncodeToString bs).length = 2 * bs.length := by
  unfold hexEncodeToString
  induction bs with
  | nil => rfl
  | cons b rest ih =>
      simp only [List.flatMap_cons, hexEncodeByte] at *
      simp only [String.length, String.mk] at *
      simp [ih]
      omega

theorem hexEncodeToString_chars {bs : List Nat} (h : ∀ b ∈ bs, b < 256) :
    ∀ c ∈ (hexEncodeToString bs).data, isLowerHexChar c := by
  unfold hexEncodeToString
  intro c hc
  simp only [String.mk] at hc
  rw [List.mem_flatMap] at hc
  obtain ⟨b, hb, hcb⟩ := hc
  exact hexEncodeByte_isLowerHex (h b hb) c hcb

/-! ## base64.StdEncoding.EncodeToString: standard alphabet, padded -/

def base64Table : List Char :=
  "ABCDEFGHIJKLMNOPQRSTUVWXYZabcdefghijklmnopqrstuvwxyz0123456789+/".data

def base64Char (i : Nat) : Char := base64Table.getD i 'A'

def base64EncodeChunks : List Nat → List Char
| b1 :: b2 :: b3 :: rest =>
    let n := b1 * 65536 + b2 * 256 + b3
    base64Char (n / 262144) :: base64Char (n / 4096 % 64) ::
      base64Char (n / 64 % 64) :: base64Char (n % 64) :: base64EncodeChunks rest
| [b1, b2] =>
    let n := b1 * 65536 + b2 * 256
    [base64Char (n / 262144), base64Char (n / 4096 % 64), base64Char (n / 64 % 64), '=']
| [b1] =>
    let n := b1 * 65536
    [base64Char (n / 262144), base64Char (n / 4096 % 64), '=', '=']
| [] => []

def base64EncodeToString (bs : List Nat) : String :=
  String.mk (base64EncodeChunks bs)

/-! ## NewKey and GenerateIdentity

The libp2p primitives (ci.GenerateKeyPair, peer.IDFromPublicKey,
ci.MarshalPrivateKey) are external collaborators, modelled as an explicit
operations record over abstract key and identifier types. -/

structure CryptoOps (κ π ρ : Type) where
generateKeyPair : Nat → Except GoError (κ × π)
idFromPublicKey : π → Except GoError ρ
marshalPrivateKey : κ → Except GoError (List Nat)

/-- The edDSAKeyLen constant NewKey passes to ci.GenerateKeyPair. -/
def edDSAKeyLen : Nat := 4096

/-- NewKey from controllers/utils/utils.go: generate a key pair, derive
the peer identifier from the public key, propagating either failure
unchanged. -/
def NewKey {κ π ρ : Type} (ops : CryptoOps κ π ρ) : Except GoError (κ × ρ) :=
  match ops.generateKeyPair edDSAKeyLen with
  | .error e => .error e
  | .ok (priv, pub) =>
      match ops.idFromPublicKey pub with
      | .error e => .error e
      | .ok peerid => .ok (priv, peerid)

/-- GenerateIdentity from controllers/utils/utils.go: NewKey, then
marshal the private key, then base64-encode; failures are wrapped by
fmt.Errorf with the context strings of the source. -/
def GenerateIdentity {κ π ρ : Type} (ops : CryptoOps κ π ρ) :
    Except GoError (ρ × String) :=
  match NewKey ops with
  | .error e => .error (.wrapped "cannot generate new key" e)
  | .ok (privateKey, peerid) =>
      match ops.marshalPrivateKey privateKey with
      | .error e => .error (.wrapped "cannot get bytes from private key" e)
      | .ok privBytes => .ok (peerid, base64EncodeToString privBytes)

/-! ## IdentityProvisioner claims -/

/-- A random source returning all-zero buffers of the requested length. -/
def zeroSource : RandRead := fun n => .ok (List.replicate n 0)

/-- A random source whose entropy is unavailable. -/
def failSource : RandRead := fun _ => .error (.base "entropy unavailable")

/-- Claim C6: when the random source succeeds, NewSwarmKey returns the
literal protocol header, the literal encoding tag, and 64 lowercase hex
characters encoding the 32 random bytes, joined by newline characters;
none of the three parts contains a newline itself, so the result is
exactly three lines. -/
theorem C6_swarm_key_format (randRead : RandRead) (bs : List Nat)
    (hok : randRead 32 = .ok bs) (hlen : bs.length = 32)
    (hbytes : ∀ b ∈ bs, b < 256) :
    NewSwarmKey randRead =
      .ok ("/key/swarm/psk/1.0.0" ++ "\n" ++ "/base16/" ++ "\n" ++ hexEncodeToString bs) ∧
    (hexEncodeToString bs).length = 64 ∧
    (∀ c ∈ (hexEncodeToString bs).data, isLowerHexChar c) ∧
    (∀ c ∈ "/key/swarm/psk/1.0.0".data, c ≠ '\n') ∧
    (∀ c ∈ "/base16/".data, c ≠ '\n') ∧
    (∀ c ∈ (hexEncodeToString bs).data, c ≠ '\n') := by
  have hchars := hexEncodeToString_chars hbytes
  refine ⟨?_, ?_, hchars, by decide, by decide, ?_⟩
  · unfold NewSwarmKey randomKey swarmHeader multiBase
    rw [hok]
  · rw [hexEncodeToString_length, hlen]
  · intro c hc heq
    exact absurd (hchars c hc) (by subst heq; decide)

/-- Claim C6, witness on the all-zero random source. -/
theorem C6_witness :
    NewSwarmKey zeroSource =
      .ok ("/key/swarm/psk/1.0.0" ++ "\n" ++ "/base16/" ++ "\n" ++
        hexEncodeToString (List.replicate 32 0)) ∧
    (hexEncodeToString (List.replicate 32 0)).length = 64 ∧
    (∀ c ∈ (hexEncodeToString (List.replicate 32 0)).data, isLowerHexChar c) ∧
    (∀ c ∈ "/key/swarm/psk/1.0.0".data, c ≠ '\n') ∧
    (∀ c ∈ "/base16/".data, c ≠ '\n') ∧
    (∀ c ∈ (hexEncodeToString (List.replicate 32 0)).data, c ≠ '\n') :=
  C6_swarm_key_format zeroSource (List.replicate 32 0) rfl (by decide) (by decide)

/-- Claim C7: when the random source succeeds, NewClusterSecret returns
the hex encoding of the 32 random bytes, 64 lowercase hexadecimal
characters; when the random source fails, the error is propagated
verbatim as the result of the single read, with no secret and no further
read. -/
theorem C7_cluster_secret (randRead : RandRead) :
    (∀ bs, randRead 32 = .ok bs → bs.length = 32 → (∀ b ∈ bs, b < 256) →
      NewClusterSecret randRead = .ok (hexEncodeToString bs) ∧
      (hexEncodeToString bs).length = 64 ∧
      ∀ c ∈ (hexEncodeToString bs).data, isLowerHexChar c) ∧
    (∀ e, randRead 32 = .error e → NewClusterSecret randRead = .error e) := by
  constructor
  · intro bs hok hlen hbytes
    refine ⟨?_, ?_, hexEncodeToString_chars hbytes⟩
    · unfold NewClusterSecret randomKey
      rw [hok]
    · rw [hexEncodeToString_length, hlen]
  · intro e he
    unfold NewClusterSecret randomKey
    rw [he]

/-- Claim C7, witness on the all-zero source and the failing source. -/
theorem C7_witness :
    (NewClusterSecret zeroSource = .ok (hexEncodeToString (List.replicate 32 0)) ∧
      (hexEncodeToString (List.replicate 32 0)).length = 64 ∧
      ∀ c ∈ (hexEncodeToString (List.replicate 32 0)).data, isLowerHexChar c) ∧
    NewClusterSecret failSource = .error (.base "entropy unavailable") :=
  ⟨(C7_cluster_secret zeroSource).1 (List.replicate 32 0) rfl (by decide) (by decide),
    (C7_cluster_secret failSource).2 (.base "entropy unavailable") rfl⟩

/-! ### Claim C8: GenerateIdentity error contexts

The source wraps a private-key marshalling failure with the context
"cannot get bytes from private key", not "cannot serialize private key";
the underlying error is preserved by the %w wrapping in both paths. -/

/-- Crypto operations whose marshalling step fails. -/
def failingMarshalOps : CryptoOps Unit Unit Unit :=
  { generateKeyPair := fun _ => .ok ((), ())
    idFromPublicKey := fun _ => .ok ()
    marshalPrivateKey := fun _ => .error (.base "marshal failure") }

/-- Crypto operations whose key-generation step fails. -/
def failingKeyGenOps : CryptoOps Unit Unit Unit :=
  { generateKeyPair := fun _ => .error (.base "keygen failure")
    idFromPublicKey := fun _ => .ok ()
    marshalPrivateKey := fun _ => .ok [] }

/-- Claim C8 counterexample: when marshalling the private key fails,
GenerateIdentity wraps the error with the context string
"cannot get bytes from private key", not the claimed
"cannot serialize private key". -/
theorem C8_counterexample :
    GenerateIdentity failingMarshalOps =
      .error (.wrapped "cannot get bytes from private key" (.base "marshal failure")) ∧
    GenerateIdentity failingMarshalOps ≠
      .error (.wrapped "cannot serialize private key" (.base "marshal failure")) ∧
    "cannot get bytes from private key" ≠ "cannot serialize private key" := by
  refine ⟨rfl, ?_, by decide⟩
  intro h
  injection h with h1
  injection h1 with h2 h3
  exact absurd h2 (by decide)

/-- Claim C8 amended: a failing GenerateIdentity step yields an error
wrapped with context identifying the step — "cannot generate new key"
for NewKey failures and "cannot get bytes from private key" for
private-key marshalling failures — and the %w wrapping keeps the
underlying error recoverable through unwrap. -/
theorem C8_amended_error_wrapping {κ π ρ : Type} (ops : CryptoOps κ π ρ) :
    (∀ e, NewKey ops = .error e →
      GenerateIdentity ops = .error (.wrapped "cannot generate new key" e) ∧
      ∃ res, GenerateIdentity ops = .error res ∧ res.unwrap = some e) ∧
    (∀ priv peerid e, NewKey ops = .ok (priv, peerid) →
      ops.marshalPrivateKey priv = .error e →
      GenerateIdentity ops = .error (.wrapped "cannot get bytes from private key" e) ∧
      ∃ res, GenerateIdentity ops = .error res ∧ res.unwrap = some e) := by
  constructor
  · intro e he
    have hg : GenerateIdentity ops = .error (.wrapped "cannot generate new key" e) := by
      unfold GenerateIdentity
      rw [he]
    exact ⟨hg, _, hg, rfl⟩
  · intro priv peerid e hok hm
    have hg : GenerateIdentity ops =
        .error (.wrapped "cannot get bytes from private key" e) := by
      simp [GenerateIdentity, hok, hm]
    exact ⟨hg, _, hg, rfl⟩

/-- Claim C8 amended, witness on concrete failing operation records. -/
theorem C8_amended_witness :
    (GenerateIdentity failingKeyGenOps =
      .error (.wrapped "cannot generate new key" (.base "keygen failure")) ∧
      ∃ res, GenerateIdentity failingKeyGenOps = .error res ∧
        res.unwrap = some (.base "keygen failure")) ∧
    (GenerateIdentity failingMarshalOps =
      .error (.wrapped "cannot get bytes from private key" (.base "marshal failure")) ∧
      ∃ res, GenerateIdentity failingMarshalOps = .error res ∧
        res.unwrap = some (.base "marshal failure")) :=
  ⟨(C8_amended_error_wrapping failingKeyGenOps).1 (.base "keygen failure") rfl,
    (C8_amended_error_wrapping failingMarshalOps).2 () () (.base "marshal failure") rfl rfl⟩

/-- A backend on which objA succeeds and objB fails. -/
def mixedBackend : ObjId → Unit → OperationResult × Option GoError :=
  fun o _ =>
    if o.name = "obj-b" then (.resultNone, some (.base "apply failure"))
    else (.created, none)

/-- Claim C1, witness: a batch with one failing object returns true, and
the empty batch returns false with no calls. -/
theorem C1_witness :
    ((CreateOrPatchTrackedObjects mixedBackend [(objA, ()), (objB, ())]).1 = true ↔
      ∃ p ∈ [(objA, ()), (objB, ())], ((mixedBackend p.1 p.2).2).isSome = true) ∧
    CreateOrPatchTrackedObjects mixedBackend ([] : List (ObjId × Unit)) = (false, []) :=
  C1_requeue_iff_some_failure mixedBackend [(objA, ()), (objB, ())]

/-- Claim C5, witness: in the batch where objA succeeds and objB fails,
both objects are processed, each to its own record. -/
theorem C5_witness :
    ((CreateOrPatchTrackedObjects mixedBackend [(objA, ()), (objB, ())]).2).length =
      [(objA, ()), (objB, ())].length ∧
    (CreateOrPatchTrackedObjects mixedBackend [(objA, ()), (objB, ())]).2 =
      [(objA, ()), (objB, ())].map (processOne mixedBackend) :=
  C5_failure_isolation mixedBackend [(objA, ()), (objB, ())]
